import Mathlib

/-!
Verification of the order pricing and loyalty subsystem of a restaurant
ordering backend.  Money values are modelled as exact rationals (the source
uses Python `Decimal`, whose `+`, `-`, `*` are exact here; the one division,
the implied-tax-rate check, is modelled as exact division).  Each definition
is a direct translation of the corresponding Python function named in its
doc comment.
-/

namespace Chopsticks

/-- A cart line as consumed by the pricing functions: a snapshotted unit
price and a quantity (`CartItem` dictionaries in `orders/services.py`,
`items_data` entries in `orders/serializers.py`). -/
structure CartItem where
  price : ℚ
  quantity : ℕ
deriving DecidableEq

/-- Sum of price times quantity over the cart lines, as computed by
`calculate_cart_totals` and (with the factors commuted) by
`_calculate_backend_totals`. -/
def cartSubtotal (items : List CartItem) : ℚ :=
  (items.map (fun i => i.price * (i.quantity : ℚ))).sum

/-- The `reward_type` choices of `loyalty.models.Reward`. -/
inductive RewardType
  | discount
  | freeItem
  | freeDelivery
  | cashback
deriving DecidableEq

/-- The `status` choices of `loyalty.models.UserReward`. -/
inductive URStatus
  | active
  | used
  | expired
deriving DecidableEq

/-- The fields of `loyalty.models.Reward` used by pricing and redemption.
Times (`valid_from`, `valid_until`) are integers on an abstract clock. -/
structure Reward where
  rewardType : RewardType
  pointsRequired : ℕ
  discountPercentage : Option ℚ
  discountAmount : Option ℚ
  isActive : Bool
  maxRedemptions : ℕ
  currentRedemptions : ℕ
  validFrom : ℤ
  validUntil : Option ℤ
deriving DecidableEq

/-- A `UserReward` as seen by `calculate_cart_totals`: its status and its
catalog reward. -/
structure UserRewardRef where
  status : URStatus
  reward : Reward
deriving DecidableEq

/-- Python truthiness of an optional Decimal (`if reward.discount_percentage:`):
`None` and zero are falsy. -/
def optTruthy : Option ℚ → Bool
  | none => false
  | some a => decide (a ≠ 0)

/-- Value of an optional Decimal, defaulting to 0 (only read under a
truthiness guard in the source). -/
def optVal : Option ℚ → ℚ
  | none => 0
  | some a => a

/-- The `reward_discount` / `total_reward_discount` computation of
`orders.services.calculate_cart_totals` (lines 90-123).  The source builds a
string (`"0"`, `"FREE ITEM"`, or `str(value)`) and parses it back with
`Decimal(...)`; this definition returns the parsed numeric value directly:
`"FREE ITEM"` and `"0"` both contribute 0, and every `str(value)` round-trips
to `value`. -/
def rewardDiscountValue (subtotal deliveryFee : ℚ) (ur : Option UserRewardRef) : ℚ :=
  match ur with
  | none => 0
  | some u =>
    if u.status ≠ URStatus.active then 0
    else
      match u.reward.rewardType with
      | RewardType.freeItem => 0
      | RewardType.cashback =>
          if optTruthy u.reward.discountAmount then optVal u.reward.discountAmount else 0
      | RewardType.discount =>
          if optTruthy u.reward.discountPercentage then
            subtotal * (optVal u.reward.discountPercentage / 100)
          else if optTruthy u.reward.discountAmount then optVal u.reward.discountAmount
          else 0
      | RewardType.freeDelivery => deliveryFee

/-- The totals dictionary returned by `calculate_cart_totals` (the numeric
fields; the `reward_discount` string and `delivery_type` echo are omitted). -/
structure CartTotals where
  subtotal : ℚ
  tax_amount : ℚ
  tax_rate : ℚ
  delivery_fee : ℚ
  discount_amount : ℚ
  total : ℚ
deriving DecidableEq

/-- Model of `orders.services.calculate_cart_totals` (the cart-preview pricing path).
`vatRate` is `RestaurantSettings.vat_rate`; `djangoMin` is the Django setting
`MINIMUM_ORDER_AMOUNT` used in the under-floor comparison; `rsMin` is
`RestaurantSettings.minimum_order`, the value the total is replaced with
(the source consults two different settings here).  The promo-code branch is
a `pass` in the source and contributes nothing. -/
def calculateCartTotals (vatRate djangoMin rsMin : ℚ) (items : List CartItem)
    (deliveryFee : ℚ) (ur : Option UserRewardRef) : CartTotals :=
  let subtotal := cartSubtotal items
  let taxAmount := subtotal * vatRate
  let total := subtotal + taxAmount + deliveryFee
  let discountAmount := 0 + rewardDiscountValue subtotal deliveryFee ur
  let finalTotal := total - discountAmount
  let finalTotal := if finalTotal < djangoMin then rsMin else finalTotal
  ⟨subtotal, taxAmount, vatRate, deliveryFee, discountAmount, finalTotal⟩

/-- Model of `UnifiedOrderSerializer._validate_totals_reasonable` (identical in
`OrderSerializer` and `GuestOrderSerializer`): the five soundness bounds on a
client-submitted totals proposal.  `minimumOrder` is
`get_minimum_order_amount()`.  The leading `Decimal(str(...)) if x else 0`
conversions are the identity on rational inputs. -/
def validateTotalsReasonable (minimumOrder subtotal tax deliveryFee discount total : ℚ) :
    Bool :=
  if |subtotal + tax + deliveryFee - discount - total| > 1/100 then false
  else if subtotal ≤ 0 ∨ 1000000 < subtotal then false
  else if ¬ (0 ≤ tax / subtotal ∧ tax / subtotal ≤ 1/4) then false
  else if deliveryFee < 0 ∨ 5000 < deliveryFee then false
  else if discount < 0 ∨ subtotal + tax + deliveryFee < discount then false
  else if total ≤ 0 ∨ 1000000 < total then false
  else if total < minimumOrder then false
  else true

/-- The totals dictionary returned by `_calculate_backend_totals`. -/
structure BackendTotals where
  subtotal : ℚ
  tax_amount : ℚ
  delivery_fee : ℚ
  discount_amount : ℚ
  total_amount : ℚ
deriving DecidableEq

/-- Model of `UnifiedOrderSerializer._calculate_backend_totals` (identical in
`OrderSerializer` and `GuestOrderSerializer`): the server-side fallback run
when the client proposal fails a soundness bound.  Subtotal and tax are
recomputed from the cart lines and `RestaurantSettings.vat_rate`;
`deliveryFee` and `discountAmount` are read back from `validated_data`
(the `delivery_fee` and `discount_amount` entries of `validated_data`),
and the discount is clamped when the total falls under `minimumOrder`. -/
def calculateBackendTotals (vatRate minimumOrder : ℚ) (items : List CartItem)
    (deliveryFee discountAmount : ℚ) : BackendTotals :=
  let subtotal := cartSubtotal items
  let taxAmount := subtotal * vatRate
  let totalAmount := subtotal + taxAmount + deliveryFee - discountAmount
  if totalAmount < minimumOrder then
    let maxDiscount := subtotal + taxAmount + deliveryFee - minimumOrder
    let clamped := min discountAmount maxDiscount
    ⟨subtotal, taxAmount, deliveryFee, clamped, subtotal + taxAmount + deliveryFee - clamped⟩
  else
    ⟨subtotal, taxAmount, deliveryFee, discountAmount, totalAmount⟩

/-- Model of `UnifiedOrderSerializer._calculate_reward_discount`, restricted to its
type dispatch on a found, active, non-expired user reward (lines 266-299;
the database lookup and expiry branches raise before reaching it).
`Except` carries the `ValidationError` raised for a `discount`-type reward
with no percentage; the payload is `Option ℚ` because the `cashback` branch
returns `reward.discount_amount`, which may be Python `None`. -/
def calcRewardDiscountUnified (subtotal deliveryFee : ℚ) (r : Reward) :
    Except String (Option ℚ) :=
  match r.rewardType with
  | RewardType.discount =>
      if optTruthy r.discountPercentage then
        Except.ok (some (subtotal * (optVal r.discountPercentage / 100)))
      else Except.error "invalid discount configuration"
  | RewardType.freeDelivery => Except.ok (some deliveryFee)
  | RewardType.cashback => Except.ok r.discountAmount
  | RewardType.freeItem => Except.ok (some 0)

/-- The `delivery_type` choices of `orders.models.Order`. -/
inductive DeliveryType
  | delivery
  | pickup
deriving DecidableEq

/-- The pricing-relevant fields of `core.models.RestaurantSettings`. -/
structure RSettings where
  vatRate : ℚ
  minimumOrder : ℚ
  pickupDeliveryFee : ℚ
  deliveryFeeBase : ℚ
  deliveryFeePerKm : ℚ
deriving DecidableEq

/-- Model of `orders.services.calculate_delivery_fee`, on the path where
`RestaurantSettings.get_settings()` succeeds (lines 24-36): pickup orders get
`settings.pickup_delivery_fee`; delivery orders get the base fee, or
base + distance × per-km floored at 0 when a distance is supplied. -/
def calculateDeliveryFee (s : RSettings) (dt : DeliveryType) (distanceKm : Option ℚ) : ℚ :=
  match dt with
  | DeliveryType.pickup => s.pickupDeliveryFee
  | DeliveryType.delivery =>
      match distanceKm with
      | none => s.deliveryFeeBase
      | some d => max (s.deliveryFeeBase + d * s.deliveryFeePerKm) 0

/-- The minimum-order rejection of `UnifiedOrderSerializer.validate_total_amount`
and of the `validate` methods (`raise ValidationError` when
`total_amount < minimum_order`): `true` iff the request is rejected. -/
def minOrderRejected (minimumOrder totalAmount : ℚ) : Bool :=
  decide (totalAmount < minimumOrder)

/-- The pickup-fee rejection in `UnifiedOrderSerializer.validate` (lines
128-134): `true` iff the serializer raises
`Delivery fee must be 0 for pickup orders`. -/
def pickupFeeRejected (dt : DeliveryType) (deliveryFee : ℚ) : Bool :=
  decide (dt = DeliveryType.pickup) && decide (deliveryFee ≠ 0)

/-- The forced delivery fee in `UnifiedOrderSerializer.create` (lines 336-341)
and `OrderSerializer.create`: pickup orders always persist `delivery_fee = 0`,
otherwise the validated fee is kept. -/
def createDeliveryFee (dt : DeliveryType) (deliveryFee : ℚ) : ℚ :=
  if dt = DeliveryType.pickup then 0 else deliveryFee

/-- The `transaction_type` choices of `loyalty.models.PointsTransaction`
reached by the modelled operations. -/
inductive TxType
  | earned
  | spent
  | physicalVisit
deriving DecidableEq

/-- A `loyalty.models.PointsTransaction` row: the stored (unsigned) amount,
its type tag, and the `balance_after` snapshot.  Rows are only ever created,
never updated or deleted, in the source. -/
structure LedgerEntry where
  amount : ℚ
  txType : TxType
  balanceAfter : ℚ
deriving DecidableEq

/-- A `loyalty.models.UserPoints` row together with that user transaction
ledger in creation order.  Balances are rationals because
`OrderSerializer.create` adds a Decimal cashback amount directly to the
balance. -/
structure PointsState where
  balance : ℚ
  totalEarned : ℚ
  totalSpent : ℚ
  ledger : List LedgerEntry
deriving DecidableEq

/-- A fresh `UserPoints` row (`get_or_create` defaults: all counters 0). -/
def initPoints : PointsState := ⟨0, 0, 0, []⟩

/-- Model of `UserPoints.add_points` (loyalty/models.py lines 29-42): increment
balance and `total_earned`, then append an `earned` transaction whose
`balance_after` is the new balance. -/
def addPoints (amount : ℕ) (s : PointsState) : PointsState :=
  let b := s.balance + amount
  { balance := b
    totalEarned := s.totalEarned + amount
    totalSpent := s.totalSpent
    ledger := s.ledger ++ [⟨(amount : ℚ), TxType.earned, b⟩] }

/-- Model of `UserPoints.spend_points` (loyalty/models.py lines 44-60): `none` models
the `ValueError("Insufficient points balance")` raised before any mutation;
otherwise decrement balance, increment `total_spent`, and append a `spent`
transaction (whose stored `amount` is the unsigned spent amount). -/
def spendPoints (amount : ℕ) (s : PointsState) : Option PointsState :=
  if s.balance < amount then none
  else
    let b := s.balance - amount
    some
      { balance := b
        totalEarned := s.totalEarned
        totalSpent := s.totalSpent + amount
        ledger := s.ledger ++ [⟨(amount : ℚ), TxType.spent, b⟩] }

/-- The balance mutations a `UserPoints` row undergoes in the source:
`add_points`, `spend_points`, and the direct cashback credit performed by
`OrderSerializer.create` (lines 1004-1007: `balance += cashback_amount;
total_earned += cashback_amount` guarded by `cashback_amount > 0`, with no
ledger append). -/
inductive PointsOp
  | earn (amount : ℕ)
  | spend (amount : ℕ)
  | cashbackCredit (amount : ℚ)

/-- Apply one operation.  A failed spend leaves the row untouched (the
`ValueError` propagates out of the enclosing `transaction.atomic`). -/
def applyOp (op : PointsOp) (s : PointsState) : PointsState :=
  match op with
  | PointsOp.earn a => addPoints a s
  | PointsOp.spend a => (spendPoints a s).getD s
  | PointsOp.cashbackCredit a =>
      if 0 < a then
        { s with balance := s.balance + a, totalEarned := s.totalEarned + a }
      else s

/-- Apply a sequence of operations in order. -/
def applyOps (ops : List PointsOp) (s : PointsState) : PointsState :=
  ops.foldl (fun st op => applyOp op st) s

/-- Model of `loyalty.services.award_points_for_order` for an order with a user
(lines 15-57): compute `int(subtotal * POINTS_PER_DOLLAR)` plus first-order
and birthday bonuses, call `add_points` (which appends one `earned` row),
then create a SECOND `earned` transaction row for the same amount with the
order reference, whose `balance_after` repeats the already-updated balance. -/
def awardPointsForOrder (pointsPerUnit firstOrderBonus birthdayBonus : ℕ)
    (subtotal : ℚ) (isFirstOrder isBirthday : Bool) (s : PointsState) : PointsState :=
  let basePoints := (⌊subtotal * (pointsPerUnit : ℚ)⌋).toNat
  let totalPoints := basePoints + (if isFirstOrder then firstOrderBonus else 0) +
    (if isBirthday then birthdayBonus else 0)
  let s1 := addPoints totalPoints s
  { s1 with ledger := s1.ledger ++ [⟨(totalPoints : ℚ), TxType.earned, s1.balance⟩] }

/-- The signed effect of a ledger row on the balance: `spent` rows record the
unsigned amount but decrease the balance; all other modelled types increase
it. -/
def signedEffect (e : LedgerEntry) : ℚ :=
  match e.txType with
  | TxType.spent => -e.amount
  | _ => e.amount

/-- Ledger replay check: starting from balance `b`, each recorded
`balance_after` equals the balance before the entry plus the signed effect
of the entry. -/
def replayOk (b : ℚ) : List LedgerEntry → Bool
  | [] => true
  | e :: rest => decide (e.balanceAfter = b + signedEffect e) && replayOk e.balanceAfter rest

/-- Model of `Reward.is_available` (loyalty/models.py lines 122-140) at abstract time
`now`: active, inside the validity window, and the redemption cap (0 means
unlimited) not reached. -/
def rewardIsAvailable (now : ℤ) (r : Reward) : Bool :=
  if !r.isActive then false
  else if now < r.validFrom then false
  else if (match r.validUntil with | some u => decide (u < now) | none => false) then false
  else if 0 < r.maxRedemptions ∧ r.maxRedemptions ≤ r.currentRedemptions then false
  else true

/-- A `loyalty.models.UserReward` row as created by redemption. -/
structure UserRewardRow where
  status : URStatus
  pointsSpent : ℕ
  redeemedAt : ℤ
  expiresAt : ℤ
deriving DecidableEq

/-- The successful outcome of a redemption: the updated points row, the
created `UserReward`, and the reward with its incremented redemption count. -/
structure RedeemOutcome where
  points : PointsState
  userReward : UserRewardRow
  reward : Reward
deriving DecidableEq

/-- The reward redemption flow: `RewardRedemptionSerializer.validate_reward_id`
(availability via `is_available`, then `can_be_redeemed_by`, i.e. a points row
exists with balance at least `points_required`) followed by
`loyalty.views.redeem_reward` (lines 163-210): re-check the balance, spend the
points, create a `UserReward` with default status `active` and default
`expires_at = now + 30` days (`get_default_expiration_date`), and increment
`current_redemptions`.  `none` models every rejection path; the view wraps the
mutations in `transaction.atomic`, so a rejection leaves no mutation. -/
def redeemReward (now : ℤ) (r : Reward) (up : Option PointsState) :
    Option RedeemOutcome :=
  if !rewardIsAvailable now r then none
  else
    match up with
    | none => none
    | some p =>
      if p.balance < (r.pointsRequired : ℚ) then none
      else
        match spendPoints r.pointsRequired p with
        | none => none
        | some p' =>
            some
              { points := p'
                userReward :=
                  { status := URStatus.active
                    pointsSpent := r.pointsRequired
                    redeemedAt := now
                    expiresAt := now + 30 }
                reward := { r with currentRedemptions := r.currentRedemptions + 1 } }

/-- The `payment_status` choices of `orders.models.Order`. -/
inductive PayStatus
  | pending
  | paid
  | failed
deriving DecidableEq

/-- The order fields read and written by `payments.views.verify_payment`:
whether a user owns the order, the inputs of `award_points_for_order`
(order count for the first-order check, stored-birthday match, subtotal),
and the payment bookkeeping fields. -/
structure OrderPayView where
  hasUser : Bool
  userOrderCount : ℕ
  isBirthday : Bool
  subtotal : ℚ
  paymentStatus : PayStatus
  paymentVerifiedAt : Option ℤ
deriving DecidableEq

/-- The state touched by payment verification: the order and the points row
of the owning user. -/
structure PaymentState where
  order : OrderPayView
  points : PointsState
deriving DecidableEq

/-- The loyalty-relevant settings constants consumed by
`award_points_for_order` (`POINTS_PER_DOLLAR`, `FIRST_ORDER_BONUS_POINTS`,
`BIRTHDAY_BONUS_POINTS`). -/
structure LoyaltyCfg where
  pointsPerUnit : ℕ
  firstOrderBonus : ℕ
  birthdayBonus : ℕ

/-- Model of `payments.views.verify_payment` (lines 85-129) after a gateway answer:
on `success`, mark the order paid, stamp `payment_verified_at = now`, and —
whenever the order has a user — run `award_points_for_order`; on any other
gateway status, mark the order failed.  No already-verified guard exists in
the source, so each invocation repeats these effects. -/
def verifyPayment (cfg : LoyaltyCfg) (now : ℤ) (gatewaySuccess : Bool)
    (st : PaymentState) : PaymentState :=
  if gatewaySuccess then
    { order := { st.order with paymentStatus := PayStatus.paid, paymentVerifiedAt := some now }
      points :=
        if st.order.hasUser then
          awardPointsForOrder cfg.pointsPerUnit cfg.firstOrderBonus cfg.birthdayBonus
            st.order.subtotal (st.order.userOrderCount = 1) st.order.isBirthday st.points
        else st.points }
  else
    { st with order := { st.order with paymentStatus := PayStatus.failed } }

/-- Lexicographic order on character lists by code point, the order the
database applies to the ASCII `order_number` strings when
`generate_order_number` sorts orders by descending order number. -/
def lexLtChars : List Char → List Char → Bool
  | [], [] => false
  | [], _ :: _ => true
  | _ :: _, [] => false
  | a :: as, b :: bs => if a < b then true else if b < a then false else lexLtChars as bs

/-- String comparison used to pick the "last" order number. -/
def strLtBool (a b : String) : Bool := lexLtChars a.data b.data

/-- Model of the first row of orders sorted by descending `order_number` in
`generate_order_number`: the maximum existing order number under string
order, or `none` when no order exists. -/
def maxOrderNumber : List String → Option String
  | [] => none
  | x :: xs => some (xs.foldl (fun m y => if strLtBool m y then y else m) x)

/-- Python `str.split` on a single separator character. -/
def splitOnChar (c : Char) : List Char → List (List Char)
  | [] => [[]]
  | x :: xs =>
    match splitOnChar c xs with
    | [] => [[]]
    | h :: t => if x = c then [] :: h :: t else (x :: h) :: t

/-- Python `int(...)` on a piece of an order number: succeeds exactly on a
non-empty digit string (the source catches `ValueError`/`IndexError` and
falls back to 1). -/
def charsToNat : List Char → Option ℕ
  | [] => none
  | l =>
      if l.all Char.isDigit then
        some (l.foldl (fun acc ch => 10 * acc + (ch.toNat - 48)) 0)
      else none

/-- Model of `generate_order_number` splitting the last order number on
hyphens and applying `int` to the piece at index 1: `none` models the caught
`IndexError` or `ValueError`. -/
def parseOrderNum (s : String) : Option ℕ :=
  match splitOnChar '-' s.data with
  | _ :: numStr :: _ => charsToNat numStr
  | _ => none

/-- Decimal digits of `n`, most significant first (fuel-style recursion). -/
def natDigitsAux : ℕ → ℕ → List Char
  | 0, _ => []
  | fuel + 1, n =>
      if n < 10 then [Nat.digitChar n]
      else natDigitsAux fuel (n / 10) ++ [Nat.digitChar (n % 10)]

/-- Python zero-padding of `n` to width 3, as the format spec 03d does. -/
def pad3 (n : ℕ) : String :=
  let ds := natDigitsAux (n + 1) n
  String.mk (List.replicate (3 - ds.length) '0' ++ ds)

/-- Format of the generated order number: the literal ORD-, then the
padded digits. -/
def formatOrderNumber (n : ℕ) : String := "ORD-" ++ pad3 n

/-- Model of `orders.models.generate_order_number` (lines 9-22): take the maximum
existing order number under string order, parse the digits after the first
hyphen (falling back to 1 on failure), add one, and format. -/
def generateOrderNumber (existing : List String) : String :=
  match maxOrderNumber existing with
  | none => formatOrderNumber 1
  | some last =>
      match parseOrderNum last with
      | some k => formatOrderNumber (k + 1)
      | none => formatOrderNumber 1


/-! ## Claim theorems -/

/-- C1 (amended): when a client-submitted totals proposal fails a soundness
bound, the fallback recomputes subtotal and tax from the cart lines and the
authoritative tax rate, carries over the delivery fee and the validated
discount from the request data, and the resulting five fields satisfy the
additive identity subtotal + tax + delivery_fee - discount = total exactly
(hence within 0.01), with the discount clamped to the minimum-order floor
when needed. -/
theorem C1_backend_totals_identity
    (minimumOrder vatRate subtotal tax deliveryFee discount total : ℚ)
    (items : List CartItem) (feeIn discountIn : ℚ)
    (_h : validateTotalsReasonable minimumOrder subtotal tax deliveryFee discount total =
      false) :
    (calculateBackendTotals vatRate minimumOrder items feeIn discountIn).subtotal +
        (calculateBackendTotals vatRate minimumOrder items feeIn discountIn).tax_amount +
        (calculateBackendTotals vatRate minimumOrder items feeIn discountIn).delivery_fee -
        (calculateBackendTotals vatRate minimumOrder items feeIn discountIn).discount_amount =
      (calculateBackendTotals vatRate minimumOrder items feeIn discountIn).total_amount := by
  by_cases hc : cartSubtotal items + cartSubtotal items * vatRate + feeIn - discountIn <
      minimumOrder
  · simp [calculateBackendTotals, hc]
  · simp [calculateBackendTotals, hc]

/-- C1 witness: a concrete proposal failing the additive-identity bound, with
the backend recomputation satisfying the identity. -/
theorem C1_backend_totals_identity_witness :
    validateTotalsReasonable 1000 2000 150 100 0 9999 = false ∧
    (calculateBackendTotals (75/1000) 1000 [⟨2000, 1⟩] 100 0).subtotal +
        (calculateBackendTotals (75/1000) 1000 [⟨2000, 1⟩] 100 0).tax_amount +
        (calculateBackendTotals (75/1000) 1000 [⟨2000, 1⟩] 100 0).delivery_fee -
        (calculateBackendTotals (75/1000) 1000 [⟨2000, 1⟩] 100 0).discount_amount =
      (calculateBackendTotals (75/1000) 1000 [⟨2000, 1⟩] 100 0).total_amount :=
  ⟨by norm_num [validateTotalsReasonable],
   C1_backend_totals_identity 1000 (75/1000) 2000 150 100 0 9999 [⟨2000, 1⟩] 100 0
     (by norm_num [validateTotalsReasonable])⟩

/-- C1 counterexample: the fallback does NOT recompute all five fields from
the cart and settings alone — it reuses the client-submitted delivery fee.
Two requests with the same cart and settings, both failing the soundness
bounds, yield different backend totals that each echo the submitted fee. -/
theorem C1_fallback_keeps_client_fee_cex :
    validateTotalsReasonable 1000 2000 150 100 0 9999 = false ∧
    validateTotalsReasonable 1000 2000 150 200 0 9999 = false ∧
    (calculateBackendTotals (75/1000) 1000 [⟨2000, 1⟩] 100 0).delivery_fee = 100 ∧
    (calculateBackendTotals (75/1000) 1000 [⟨2000, 1⟩] 200 0).delivery_fee = 200 ∧
    calculateBackendTotals (75/1000) 1000 [⟨2000, 1⟩] 100 0 ≠
      calculateBackendTotals (75/1000) 1000 [⟨2000, 1⟩] 200 0 := by
  refine ⟨by norm_num [validateTotalsReasonable], by norm_num [validateTotalsReasonable],
    ?_, ?_, ?_⟩ <;>
    norm_num [calculateBackendTotals, cartSubtotal, BackendTotals.mk.injEq]

/-- C2 (amended): a cart-preview pricing result satisfies the additive
identity subtotal + tax + delivery_fee - discount = total (exactly, hence
within 0.01) whenever the computed total is not overridden by the
minimum-order floor, i.e. whenever it is at least the configured
MINIMUM_ORDER_AMOUNT. -/
theorem C2_cart_totals_identity (vatRate djangoMin rsMin : ℚ) (items : List CartItem)
    (deliveryFee : ℚ) (ur : Option UserRewardRef)
    (h : djangoMin ≤ cartSubtotal items + cartSubtotal items * vatRate + deliveryFee -
        rewardDiscountValue (cartSubtotal items) deliveryFee ur) :
    (calculateCartTotals vatRate djangoMin rsMin items deliveryFee ur).subtotal +
        (calculateCartTotals vatRate djangoMin rsMin items deliveryFee ur).tax_amount +
        (calculateCartTotals vatRate djangoMin rsMin items deliveryFee ur).delivery_fee -
        (calculateCartTotals vatRate djangoMin rsMin items deliveryFee ur).discount_amount =
      (calculateCartTotals vatRate djangoMin rsMin items deliveryFee ur).total := by
  have hn : ¬ (cartSubtotal items + cartSubtotal items * vatRate + deliveryFee -
      (0 + rewardDiscountValue (cartSubtotal items) deliveryFee ur) < djangoMin) := by
    push_neg
    linarith
  simp only [calculateCartTotals, hn, if_false]

/-- C2 witness: a concrete cart whose preview total clears the floor and
satisfies the identity. -/
theorem C2_cart_totals_identity_witness :
    (1000 : ℚ) ≤ cartSubtotal [⟨2000, 1⟩] + cartSubtotal [⟨2000, 1⟩] * (75/1000) + 0 -
        rewardDiscountValue (cartSubtotal [⟨2000, 1⟩]) 0 none ∧
    (calculateCartTotals (75/1000) 1000 0 [⟨2000, 1⟩] 0 none).subtotal +
        (calculateCartTotals (75/1000) 1000 0 [⟨2000, 1⟩] 0 none).tax_amount +
        (calculateCartTotals (75/1000) 1000 0 [⟨2000, 1⟩] 0 none).delivery_fee -
        (calculateCartTotals (75/1000) 1000 0 [⟨2000, 1⟩] 0 none).discount_amount =
      (calculateCartTotals (75/1000) 1000 0 [⟨2000, 1⟩] 0 none).total :=
  ⟨by norm_num [cartSubtotal, rewardDiscountValue],
   C2_cart_totals_identity (75/1000) 1000 0 [⟨2000, 1⟩] 0 none
     (by norm_num [cartSubtotal, rewardDiscountValue])⟩

/-- C2 counterexample: a cart priced below the floor (default settings:
Django MINIMUM_ORDER_AMOUNT 1000, RestaurantSettings minimum_order 0) has
its total replaced by the configured minimum while the other four fields
stay, so the additive identity fails by 107.50. -/
theorem C2_identity_fails_under_floor_cex :
    (calculateCartTotals (75/1000) 1000 0 [⟨100, 1⟩] 0 none).subtotal +
        (calculateCartTotals (75/1000) 1000 0 [⟨100, 1⟩] 0 none).tax_amount +
        (calculateCartTotals (75/1000) 1000 0 [⟨100, 1⟩] 0 none).delivery_fee -
        (calculateCartTotals (75/1000) 1000 0 [⟨100, 1⟩] 0 none).discount_amount -
        (calculateCartTotals (75/1000) 1000 0 [⟨100, 1⟩] 0 none).total = 215/2 ∧
    (1/100 : ℚ) < 215/2 := by
  constructor
  · norm_num [calculateCartTotals, cartSubtotal, rewardDiscountValue]
  · norm_num


/-- C3 (amended): a priced cart whose total falls below the minimum-order
floor is rejected in the order-creation path (the serializer raises a
minimum-order validation error); in the cart-preview path the returned total
is replaced directly by the configured RestaurantSettings minimum_order while
the discount is left unchanged (it is not reduced to make the identity land
on the floor). -/
theorem C3_min_order_enforcement (minimumOrder v vatRate djangoMin rsMin : ℚ)
    (items : List CartItem) (deliveryFee : ℚ) (ur : Option UserRewardRef)
    (hcreate : v < minimumOrder)
    (hpreview : cartSubtotal items + cartSubtotal items * vatRate + deliveryFee -
        rewardDiscountValue (cartSubtotal items) deliveryFee ur < djangoMin) :
    minOrderRejected minimumOrder v = true ∧
    (calculateCartTotals vatRate djangoMin rsMin items deliveryFee ur).total = rsMin ∧
    (calculateCartTotals vatRate djangoMin rsMin items deliveryFee ur).discount_amount =
      rewardDiscountValue (cartSubtotal items) deliveryFee ur := by
  have hc : cartSubtotal items + cartSubtotal items * vatRate + deliveryFee -
      (0 + rewardDiscountValue (cartSubtotal items) deliveryFee ur) < djangoMin := by
    linarith
  refine ⟨?_, ?_, ?_⟩
  · simp [minOrderRejected, hcreate]
  · simp only [calculateCartTotals]
    rw [if_pos hc]
  · simp [calculateCartTotals]

/-- C3 witness: total 650 under floor 1000 is rejected at order creation, and
the preview returns the configured minimum with the discount untouched. -/
theorem C3_min_order_enforcement_witness :
    (650 : ℚ) < 1000 ∧
    cartSubtotal [⟨2000, 1⟩] + cartSubtotal [⟨2000, 1⟩] * (75/1000) + 0 -
        rewardDiscountValue (cartSubtotal [⟨2000, 1⟩]) 0
          (some ⟨URStatus.active,
            ⟨RewardType.discount, 0, none, some 1500, true, 0, 0, 0, none⟩⟩) < 1000 ∧
    minOrderRejected 1000 650 = true ∧
    (calculateCartTotals (75/1000) 1000 1000 [⟨2000, 1⟩] 0
        (some ⟨URStatus.active,
          ⟨RewardType.discount, 0, none, some 1500, true, 0, 0, 0, none⟩⟩)).total = 1000 :=
  ⟨by norm_num,
   by norm_num [cartSubtotal, rewardDiscountValue, optTruthy, optVal],
   (C3_min_order_enforcement 1000 650 (75/1000) 1000 1000 [⟨2000, 1⟩] 0
      (some ⟨URStatus.active, ⟨RewardType.discount, 0, none, some 1500, true, 0, 0, 0, none⟩⟩)
      (by norm_num)
      (by norm_num [cartSubtotal, rewardDiscountValue, optTruthy, optVal])).1,
   (C3_min_order_enforcement 1000 650 (75/1000) 1000 1000 [⟨2000, 1⟩] 0
      (some ⟨URStatus.active, ⟨RewardType.discount, 0, none, some 1500, true, 0, 0, 0, none⟩⟩)
      (by norm_num)
      (by norm_num [cartSubtotal, rewardDiscountValue, optTruthy, optVal])).2.1⟩

/-- C3 counterexample: with both minimum settings at 1000, a cart with
subtotal 2000, tax 150, fee 0 and a fixed 1500 reward discount prices to 650;
the preview returns total 1000 but leaves discount_amount at 1500 — the
discount is NOT reduced (a clamp would give 1150), and the returned fields
violate the additive identity. -/
theorem C3_preview_discount_not_clamped_cex :
    (calculateCartTotals (75/1000) 1000 1000 [⟨2000, 1⟩] 0
        (some ⟨URStatus.active,
          ⟨RewardType.discount, 0, none, some 1500, true, 0, 0, 0, none⟩⟩)).discount_amount =
      1500 ∧
    (calculateCartTotals (75/1000) 1000 1000 [⟨2000, 1⟩] 0
        (some ⟨URStatus.active,
          ⟨RewardType.discount, 0, none, some 1500, true, 0, 0, 0, none⟩⟩)).total = 1000 ∧
    (calculateCartTotals (75/1000) 1000 1000 [⟨2000, 1⟩] 0
          (some ⟨URStatus.active,
            ⟨RewardType.discount, 0, none, some 1500, true, 0, 0, 0, none⟩⟩)).subtotal +
        (calculateCartTotals (75/1000) 1000 1000 [⟨2000, 1⟩] 0
          (some ⟨URStatus.active,
            ⟨RewardType.discount, 0, none, some 1500, true, 0, 0, 0, none⟩⟩)).tax_amount +
        (calculateCartTotals (75/1000) 1000 1000 [⟨2000, 1⟩] 0
          (some ⟨URStatus.active,
            ⟨RewardType.discount, 0, none, some 1500, true, 0, 0, 0, none⟩⟩)).delivery_fee -
        (calculateCartTotals (75/1000) 1000 1000 [⟨2000, 1⟩] 0
          (some ⟨URStatus.active,
            ⟨RewardType.discount, 0, none, some 1500, true, 0, 0, 0, none⟩⟩)).discount_amount ≠
      (calculateCartTotals (75/1000) 1000 1000 [⟨2000, 1⟩] 0
        (some ⟨URStatus.active,
          ⟨RewardType.discount, 0, none, some 1500, true, 0, 0, 0, none⟩⟩)).total := by
  refine ⟨?_, ?_, ?_⟩ <;>
    norm_num [calculateCartTotals, cartSubtotal, rewardDiscountValue, optTruthy, optVal]

/-- C4: evaluation at the failing input.  A cashback reward with
discount_amount 500 contributes 500 — not 0 — to the discount in both the
order-creation serializer dispatch (which returns reward.discount_amount
directly under a comment saying cashback does not affect the total) and the
cart-preview computation, so the cashback reduces the order total. -/
theorem C4_cashback_reduces_total :
    calcRewardDiscountUnified 2000 0
        ⟨RewardType.cashback, 0, none, some 500, true, 0, 0, 0, none⟩ =
      Except.ok (some 500) ∧
    rewardDiscountValue 2000 0
        (some ⟨URStatus.active,
          ⟨RewardType.cashback, 0, none, some 500, true, 0, 0, 0, none⟩⟩) = 500 ∧
    (500 : ℚ) ≠ 0 := by
  refine ⟨?_, ?_, ?_⟩ <;>
    norm_num [calcRewardDiscountUnified, rewardDiscountValue, optTruthy, optVal]

/-- C9 (amended): for pickup orders the serializer rejects any non-zero
submitted delivery fee and order creation persists a fee of exactly 0, while
the delivery-fee computation returns the configured
RestaurantSettings.pickup_delivery_fee — which is 0 only when so configured
(its default). -/
theorem C9_pickup_fee_behavior (s : RSettings) (fee : ℚ) (dkm : Option ℚ) :
    (pickupFeeRejected DeliveryType.pickup fee = true ↔ fee ≠ 0) ∧
    createDeliveryFee DeliveryType.pickup fee = 0 ∧
    calculateDeliveryFee s DeliveryType.pickup dkm = s.pickupDeliveryFee ∧
    (s.pickupDeliveryFee = 0 → calculateDeliveryFee s DeliveryType.pickup dkm = 0) := by
  refine ⟨?_, ?_, ?_, ?_⟩
  · simp [pickupFeeRejected]
  · simp [createDeliveryFee]
  · simp [calculateDeliveryFee]
  · intro h0
    simp [calculateDeliveryFee, h0]

/-- C9 witness: with the default settings (pickup fee 0), a submitted fee of
500 on a pickup order is rejected, creation stores 0, and the computation
returns 0. -/
theorem C9_pickup_fee_behavior_witness :
    pickupFeeRejected DeliveryType.pickup 500 = true ∧
    createDeliveryFee DeliveryType.pickup 500 = 0 ∧
    calculateDeliveryFee ⟨75/1000, 1000, 0, 2000, 150⟩ DeliveryType.pickup none = 0 :=
  ⟨(C9_pickup_fee_behavior ⟨75/1000, 1000, 0, 2000, 150⟩ 500 none).1.mpr (by norm_num),
   (C9_pickup_fee_behavior ⟨75/1000, 1000, 0, 2000, 150⟩ 500 none).2.1,
   (C9_pickup_fee_behavior ⟨75/1000, 1000, 0, 2000, 150⟩ 500 none).2.2.2 rfl⟩

/-- C9 counterexample: when RestaurantSettings.pickup_delivery_fee is
configured to 500, the delivery-fee computation returns 500 for pickup, not
0. -/
theorem C9_configured_pickup_fee_cex :
    calculateDeliveryFee ⟨75/1000, 1000, 500, 2000, 150⟩ DeliveryType.pickup none = 500 ∧
    (500 : ℚ) ≠ 0 := by
  constructor
  · simp [calculateDeliveryFee]
  · norm_num

/-- C10: evaluation at the failing input.  With existing orders ORD-999 and
ORD-1000, the generator picks ORD-999 as the maximum under string order,
parses 999, and emits ORD-1000 — a number that already exists, violating
both uniqueness and monotonicity. -/
theorem C10_generator_repeats_number_cex :
    generateOrderNumber ["ORD-999", "ORD-1000"] = "ORD-1000" ∧
    "ORD-1000" ∈ ["ORD-999", "ORD-1000"] := by
  constructor
  · decide
  · decide


/-- Single-step preservation of the points-balance invariant by the three
balance mutations in the source. -/
theorem applyOp_invariant (op : PointsOp) (s : PointsState)
    (h1 : s.balance = s.totalEarned - s.totalSpent) (h2 : 0 ≤ s.balance) :
    (applyOp op s).balance = (applyOp op s).totalEarned - (applyOp op s).totalSpent ∧
      0 ≤ (applyOp op s).balance := by
  cases op with
  | earn a =>
      have ha : (0:ℚ) ≤ (a:ℚ) := Nat.cast_nonneg a
      constructor
      · simp [applyOp, addPoints]
        linarith
      · simp [applyOp, addPoints]
        linarith
  | spend a =>
      by_cases hlt : s.balance < (a : ℚ)
      · simp [applyOp, spendPoints, hlt]
        exact ⟨h1, h2⟩
      · have hge := not_lt.mp hlt
        constructor
        · simp [applyOp, spendPoints, hlt]
          linarith
        · simp [applyOp, spendPoints, hlt]
          linarith
  | cashbackCredit a =>
      by_cases hpos : (0:ℚ) < a
      · constructor
        · simp [applyOp, hpos]
          linarith
        · simp [applyOp, hpos]
          linarith
      · simp [applyOp, hpos]
        exact ⟨h1, h2⟩

/-- Preservation of the points-balance invariant by any operation
sequence. -/
theorem applyOps_invariant (ops : List PointsOp) (s : PointsState)
    (h1 : s.balance = s.totalEarned - s.totalSpent) (h2 : 0 ≤ s.balance) :
    (applyOps ops s).balance = (applyOps ops s).totalEarned - (applyOps ops s).totalSpent ∧
      0 ≤ (applyOps ops s).balance := by
  induction ops generalizing s with
  | nil => exact ⟨h1, h2⟩
  | cons op rest ih =>
      have hstep := applyOp_invariant op s h1 h2
      exact ih (applyOp op s) hstep.1 hstep.2

/-- C5: after any sequence of earn, spend, and cashback-credit operations on
a fresh points row, balance = total_earned - total_spent and balance is never
negative; a spend whose amount exceeds the balance performs no mutation.
Every prefix of a sequence is itself a sequence, so this gives the invariant
after every operation. -/
theorem C5_balance_invariant (ops : List PointsOp) :
    ((applyOps ops initPoints).balance =
        (applyOps ops initPoints).totalEarned - (applyOps ops initPoints).totalSpent ∧
      0 ≤ (applyOps ops initPoints).balance) ∧
    ∀ (s : PointsState) (a : ℕ), s.balance < (a : ℚ) → applyOp (PointsOp.spend a) s = s := by
  constructor
  · exact applyOps_invariant ops initPoints (by simp [initPoints]) (by simp [initPoints])
  · intro s a hlt
    simp [applyOp, spendPoints, hlt]

/-- C5 witness: spending 500 at balance 300 mutates nothing (Example 5 of the
spec), and a concrete earn-then-overdraw sequence keeps the balance
non-negative. -/
theorem C5_balance_invariant_witness :
    applyOp (PointsOp.spend 500) ⟨300, 300, 0, []⟩ = ⟨300, 300, 0, []⟩ ∧
    0 ≤ (applyOps [PointsOp.earn 300, PointsOp.spend 500] initPoints).balance :=
  ⟨(C5_balance_invariant []).2 ⟨300, 300, 0, []⟩ 500 (by norm_num),
   (C5_balance_invariant [PointsOp.earn 300, PointsOp.spend 500]).1.2⟩

/-- Balance recorded by the last ledger entry, or `b` for an empty ledger. -/
def lastBalanceAfter (b : ℚ) : List LedgerEntry → ℚ
  | [] => b
  | e :: rest => lastBalanceAfter e.balanceAfter rest

/-- Replay of a ledger extended by one entry: the old ledger must replay and
the new entry must extend the last recorded balance by its signed effect. -/
theorem replayOk_append (b : ℚ) (l : List LedgerEntry) (e : LedgerEntry) :
    replayOk b (l ++ [e]) =
      (replayOk b l && decide (e.balanceAfter = lastBalanceAfter b l + signedEffect e)) := by
  induction l generalizing b with
  | nil => simp [replayOk, lastBalanceAfter]
  | cons x xs ih => simp [replayOk, lastBalanceAfter, ih, Bool.and_assoc]

/-- Appending an entry makes it the last recorded balance. -/
theorem lastBalanceAfter_append (b : ℚ) (l : List LedgerEntry) (e : LedgerEntry) :
    lastBalanceAfter b (l ++ [e]) = e.balanceAfter := by
  induction l generalizing b with
  | nil => simp [lastBalanceAfter]
  | cons x xs ih => simp [lastBalanceAfter, ih]

/-- Single-step preservation of ledger-replay consistency by the two ledger
mutators (`add_points` and `spend_points`). -/
theorem applyOp_ledger_invariant (op : PointsOp) (s : PointsState)
    (hop : ∀ a : ℚ, op ≠ PointsOp.cashbackCredit a)
    (h1 : replayOk 0 s.ledger = true)
    (h2 : lastBalanceAfter 0 s.ledger = s.balance) :
    replayOk 0 (applyOp op s).ledger = true ∧
      lastBalanceAfter 0 (applyOp op s).ledger = (applyOp op s).balance := by
  cases op with
  | earn a =>
      constructor
      · simp [applyOp, addPoints, replayOk_append, h1, h2, signedEffect]
      · simp [applyOp, addPoints, lastBalanceAfter_append]
  | spend a =>
      by_cases hlt : s.balance < (a : ℚ)
      · simp [applyOp, spendPoints, hlt, h1, h2]
      · constructor
        · simp [applyOp, spendPoints, hlt, replayOk_append, h1, h2, signedEffect]
          ring
        · simp [applyOp, spendPoints, hlt, lastBalanceAfter_append]
  | cashbackCredit a => exact absurd rfl (hop a)

/-- Preservation of ledger-replay consistency by any sequence of ledger
mutators. -/
theorem applyOps_ledger_invariant (ops : List PointsOp) (s : PointsState)
    (hops : ∀ a : ℚ, PointsOp.cashbackCredit a ∉ ops)
    (h1 : replayOk 0 s.ledger = true)
    (h2 : lastBalanceAfter 0 s.ledger = s.balance) :
    replayOk 0 (applyOps ops s).ledger = true ∧
      lastBalanceAfter 0 (applyOps ops s).ledger = (applyOps ops s).balance := by
  induction ops generalizing s with
  | nil => exact ⟨h1, h2⟩
  | cons op rest ih =>
      have hop : ∀ a : ℚ, op ≠ PointsOp.cashbackCredit a := by
        intro a heq
        exact hops a (heq ▸ List.mem_cons_self op rest)
      have hrest : ∀ a : ℚ, PointsOp.cashbackCredit a ∉ rest := by
        intro a hmem
        exact hops a (List.mem_cons_of_mem op hmem)
      have hstep := applyOp_ledger_invariant op s hop h1 h2
      exact ih (applyOp op s) hrest hstep.1 hstep.2

/-- C6 (amended): ledgers produced by sequences of the two ledger mutators
`add_points` and `spend_points` (the cashback credit writes no ledger row and
is excluded) replay correctly from zero, and every operation only appends to
the ledger — existing entries are never mutated or deleted.  The extra
duplicate row appended by `award_points_for_order` breaks the replay
property, see the counterexample. -/
theorem C6_ledger_replay (ops : List PointsOp)
    (hops : ∀ a : ℚ, PointsOp.cashbackCredit a ∉ ops) :
    replayOk 0 (applyOps ops initPoints).ledger = true ∧
    ∀ (op : PointsOp) (s : PointsState), ∃ es, (applyOp op s).ledger = s.ledger ++ es := by
  constructor
  · exact (applyOps_ledger_invariant ops initPoints hops (by simp [initPoints, replayOk])
      (by simp [initPoints, lastBalanceAfter])).1
  · intro op s
    cases op with
    | earn a => exact ⟨_, rfl⟩
    | spend a =>
        by_cases hlt : s.balance < (a : ℚ)
        · refine ⟨[], ?_⟩
          simp [applyOp, spendPoints, hlt]
        · refine ⟨[⟨(a : ℚ), TxType.spent, s.balance - a⟩], ?_⟩
          simp [applyOp, spendPoints, hlt]
    | cashbackCredit a =>
        by_cases hpos : (0:ℚ) < a
        · refine ⟨[], ?_⟩
          simp [applyOp, hpos]
        · refine ⟨[], ?_⟩
          simp [applyOp, hpos]

/-- C6 witness: a concrete earn-then-spend ledger replays correctly. -/
theorem C6_ledger_replay_witness :
    replayOk 0 (applyOps [PointsOp.earn 100, PointsOp.spend 40] initPoints).ledger = true :=
  (C6_ledger_replay [PointsOp.earn 100, PointsOp.spend 40]
    (by intro a hmem; simp at hmem)).1

/-- C6 counterexample: one `award_points_for_order` call crediting 10 points
to a fresh row appends TWO identical earned entries, both recording
balance_after 10; the second entry violates the replay recurrence
(10 ≠ 10 + 10), so replaying the ledger from zero does not reproduce the
balance. -/
theorem C6_award_duplicate_entry_cex :
    (awardPointsForOrder 1 0 0 10 false false initPoints).ledger =
      [⟨10, TxType.earned, 10⟩, ⟨10, TxType.earned, 10⟩] ∧
    replayOk 0 (awardPointsForOrder 1 0 0 10 false false initPoints).ledger = false := by
  have hb : (⌊(10:ℚ) * ((1:ℕ):ℚ)⌋).toNat = 10 := by
    have h1 : (10:ℚ) * ((1:ℕ):ℚ) = 10 := by norm_num
    rw [h1, show ((10:ℚ) = ((10:ℤ):ℚ)) by norm_num, Int.floor_intCast]
    rfl
  constructor
  · simp [awardPointsForOrder, addPoints, initPoints, hb]
  · simp [awardPointsForOrder, addPoints, initPoints, replayOk, signedEffect, hb]


/-- C7: a redemption request succeeds exactly when the reward is available
(active, inside its validity window, cap not reached) and the user holds at
least points_required points; on success it spends exactly points_required,
creates a UserReward with status active and the default 30-day expiry, and
increments current_redemptions by one; every rejection (including a reached
non-zero redemption cap) returns without mutating anything. -/
theorem C7_redeem_characterization (now : ℤ) (r : Reward) (p : PointsState) :
    ((redeemReward now r (some p)).isSome ↔
        (rewardIsAvailable now r = true ∧ (r.pointsRequired : ℚ) ≤ p.balance)) ∧
    (∀ out : RedeemOutcome, redeemReward now r (some p) = some out →
        out.points.balance = p.balance - (r.pointsRequired : ℚ) ∧
        out.points.totalSpent = p.totalSpent + (r.pointsRequired : ℚ) ∧
        out.userReward.status = URStatus.active ∧
        out.userReward.pointsSpent = r.pointsRequired ∧
        out.userReward.expiresAt = now + 30 ∧
        out.reward.currentRedemptions = r.currentRedemptions + 1) ∧
    redeemReward now r none = none ∧
    (0 < r.maxRedemptions → r.maxRedemptions ≤ r.currentRedemptions →
        redeemReward now r (some p) = none) := by
  refine ⟨?_, ?_, ?_, ?_⟩
  · cases hav : rewardIsAvailable now r with
    | false => simp [redeemReward, hav]
    | true =>
        by_cases hbal : p.balance < (r.pointsRequired : ℚ)
        · simp [redeemReward, hav, hbal, not_le.mpr hbal]
        · simp [redeemReward, hav, hbal, spendPoints, not_lt.mp hbal]
  · intro out hout
    cases hav : rewardIsAvailable now r with
    | false => simp [redeemReward, hav] at hout
    | true =>
        by_cases hbal : p.balance < (r.pointsRequired : ℚ)
        · simp [redeemReward, hav, hbal] at hout
        · simp [redeemReward, hav, hbal, spendPoints] at hout
          subst hout
          refine ⟨?_, ?_, rfl, rfl, rfl, rfl⟩ <;> simp
  · simp [redeemReward]
  · intro hmax hcur
    have hav : rewardIsAvailable now r = false := by
      unfold rewardIsAvailable
      split
      · rfl
      · split
        · rfl
        · split
          · rfl
          · split
            · rfl
            · next h4 => exact absurd ⟨hmax, hcur⟩ h4
    simp [redeemReward, hav]

/-- C7 witness: with 150 points, a 100-point reward with cap 5 and 4
redemptions so far is redeemed; the same reward at its cap is rejected. -/
theorem C7_redeem_characterization_witness :
    (redeemReward 0 ⟨RewardType.freeDelivery, 100, none, none, true, 5, 4, 0, none⟩
        (some ⟨150, 150, 0, []⟩)).isSome ∧
    redeemReward 0 ⟨RewardType.freeDelivery, 100, none, none, true, 5, 5, 0, none⟩
        (some ⟨150, 150, 0, []⟩) = none :=
  ⟨(C7_redeem_characterization 0
      ⟨RewardType.freeDelivery, 100, none, none, true, 5, 4, 0, none⟩
      ⟨150, 150, 0, []⟩).1.mpr
      ⟨by decide, by show ((100:ℕ):ℚ) ≤ (150:ℚ); norm_num⟩,
   (C7_redeem_characterization 0
      ⟨RewardType.freeDelivery, 100, none, none, true, 5, 5, 0, none⟩
      ⟨150, 150, 0, []⟩).2.2.2 (by decide) (by decide)⟩

/-- C8: evaluation at the failing input.  Verifying the same successful
gateway reference twice for an order with subtotal 10 (points rate 1, no
bonuses) leaves the points balance at 20, not the 10 a single verification
leaves: the view re-runs award_points_for_order on every successful call, so
payment confirmation is not idempotent and double-credits the balance. -/
theorem C8_double_verification_double_credits :
    (verifyPayment ⟨1, 1000, 5000⟩ 0 true
        (verifyPayment ⟨1, 1000, 5000⟩ 0 true
          ⟨⟨true, 2, false, 10, PayStatus.pending, none⟩, initPoints⟩)).points.balance = 20 ∧
    (verifyPayment ⟨1, 1000, 5000⟩ 0 true
        ⟨⟨true, 2, false, 10, PayStatus.pending, none⟩, initPoints⟩).points.balance = 10 ∧
    (20 : ℚ) ≠ 10 ∧
    (verifyPayment ⟨1, 1000, 5000⟩ 0 true
        ⟨⟨true, 2, false, 10, PayStatus.pending, none⟩, initPoints⟩).order.paymentStatus =
      PayStatus.paid := by
  have hb : (⌊(10:ℚ) * ((1:ℕ):ℚ)⌋).toNat = 10 := by
    have h1 : (10:ℚ) * ((1:ℕ):ℚ) = 10 := by norm_num
    rw [h1, show ((10:ℚ) = ((10:ℤ):ℚ)) by norm_num, Int.floor_intCast]
    rfl
  have ht : Int.toNat 10 = 10 := rfl
  refine ⟨?_, ?_, by norm_num, ?_⟩ <;>
    norm_num [verifyPayment, awardPointsForOrder, addPoints, initPoints, hb, ht]

end Chopsticks
